import Mathlib

/-!
Shallow embedding of the ipsec-manager policy engine and reconciliation
agent (Go sources: internal/policy/schema.go, internal/ipsec types, and the
agent package), together with theorems settling the spec claims.

Go string-typed enumerations (IPsecMode, AuthType, EncryptionAlgorithm,
IntegrityAlgorithm, DHGroup, IKEVersion, TunnelState) are embedded as
String with named constants, because the Go code compares them as strings
and validators must be able to reject unknown values.  Go time.Duration is
embedded as Int nanoseconds; time.Time fields as Int (they are never read
by the embedded logic).
-/

namespace IpsecManager

abbrev IPsecMode := String

def ModeESPTunnel : IPsecMode := "esp-tunnel"

def ModeESPTransport : IPsecMode := "esp-transport"

def ModeAHTunnel : IPsecMode := "ah-tunnel"

def ModeAHTransport : IPsecMode := "ah-transport"

def ModeESPAHTunnel : IPsecMode := "esp-ah-tunnel"

abbrev AuthType := String

def AuthPSK : AuthType := "psk"

def AuthCertificate : AuthType := "certificate"

abbrev EncryptionAlgorithm := String

def EncryptionAES128 : EncryptionAlgorithm := "aes128"

def EncryptionAES256 : EncryptionAlgorithm := "aes256"

def EncryptionAES128GCM : EncryptionAlgorithm := "aes128gcm"

def EncryptionAES256GCM : EncryptionAlgorithm := "aes256gcm"

def Encryption3DES : EncryptionAlgorithm := "3des"

abbrev IntegrityAlgorithm := String

def IntegritySHA1 : IntegrityAlgorithm := "sha1"

def IntegritySHA256 : IntegrityAlgorithm := "sha256"

def IntegritySHA384 : IntegrityAlgorithm := "sha384"

def IntegritySHA512 : IntegrityAlgorithm := "sha512"

abbrev DHGroup := String

def DHGroupModp1024 : DHGroup := "modp1024"

def DHGroupModp1536 : DHGroup := "modp1536"

def DHGroupModp2048 : DHGroup := "modp2048"

def DHGroupModp3072 : DHGroup := "modp3072"

def DHGroupModp4096 : DHGroup := "modp4096"

def DHGroupModp8192 : DHGroup := "modp8192"

def DHGroupECP256 : DHGroup := "ecp256"

def DHGroupECP384 : DHGroup := "ecp384"

def DHGroupECP521 : DHGroup := "ecp521"

abbrev IKEVersion := String

def IKEv1 : IKEVersion := "ikev1"

def IKEv2 : IKEVersion := "ikev2"

abbrev TunnelState := String

def StateDown : TunnelState := "down"

def StateConnecting : TunnelState := "connecting"

def StateEstablished : TunnelState := "established"

def StateRekeying : TunnelState := "rekeying"

def StateError : TunnelState := "error"

/-- Go time.Duration constants, in nanoseconds (Go time.Second etc.). -/
def nanosecond : Int := 1

def second : Int := 1000000000

def minute : Int := 60 * second

def hour : Int := 60 * minute

/-- ipsec.CryptoConfig -/
structure CryptoConfig where
  encryption : EncryptionAlgorithm
  integrity : IntegrityAlgorithm
  dhGroup : DHGroup
  ikeVersion : IKEVersion
  lifetime : Int
  deriving DecidableEq

/-- ipsec.AuthConfig -/
structure AuthConfig where
  type : AuthType
  secret : String
  certPath : String
  keyPath : String
  caCertPath : String
  deriving DecidableEq

/-- ipsec.TrafficSelector -/
structure TrafficSelector where
  localSubnet : String
  remoteSubnet : String
  protocol : String
  localPort : Nat
  remotePort : Nat
  deriving DecidableEq

/-- ipsec.DPDConfig -/
structure DPDConfig where
  delay : Int
  action : String
  deriving DecidableEq

/-- ipsec.TunnelConfig -/
structure TunnelConfig where
  name : String
  mode : IPsecMode
  localAddress : String
  remoteAddress : String
  localID : String
  remoteID : String
  crypto : CryptoConfig
  auth : AuthConfig
  trafficSelectors : List TrafficSelector
  dpd : DPDConfig
  autoStart : Bool
  mark : String
  deriving DecidableEq

/-- ipsec.TunnelStatus -/
structure TunnelStatus where
  name : String
  state : TunnelState
  localAddress : String
  remoteAddress : String
  establishedAt : Int
  lastRekeyAt : Int
  bytesIn : Nat
  bytesOut : Nat
  packetsIn : Nat
  packetsOut : Nat
  uptime : Int
  errorMessage : String
  deriving DecidableEq

/-- policy.Policy -/
structure Policy where
  id : String
  name : String
  description : String
  version : Int
  createdAt : Int
  updatedAt : Int
  enabled : Bool
  tunnels : List TunnelConfig
  appliesTo : List String
  priority : Int
  deriving DecidableEq

/-- policy.PeerInfo (fields not read by the embedded logic are kept for
fidelity of the record shape; Metadata is an association list). -/
structure PeerInfo where
  id : String
  hostname : String
  platform : String
  ipAddress : String
  version : String
  tags : List String
  lastSeenAt : Int
  registeredAt : Int
  status : String
  deriving DecidableEq

/-- Inner loops of FilterPoliciesForPeer (schema.go lines 94-107): scan the
policy's AppliesTo targets; a target equal to the peer id or "*" appends the
policy and stops the scan (Go breaks the outer loop); a target equal to one
of the peer's tags appends the policy and the scan continues with the next
target (the Go break leaves only the inner tag loop). -/
def matchTargets (pol : Policy) (peer : PeerInfo) : List String → List Policy
  | [] => []
  | target :: rest =>
    if target = peer.id ∨ target = "*" then [pol]
    else if target ∈ peer.tags then pol :: matchTargets pol peer rest
    else matchTargets pol peer rest

/-- PolicyEngine.FilterPoliciesForPeer (schema.go lines 78-111): skip
disabled policies; a policy with empty AppliesTo applies to all peers;
otherwise scan its targets with matchTargets. -/
def FilterPoliciesForPeer (policies : List Policy) (peer : PeerInfo) : List Policy :=
  policies.flatMap fun pol =>
    if ¬pol.enabled then []
    else if pol.appliesTo = [] then [pol]
    else matchTargets pol peer pol.appliesTo

/-- Go map assignment tunnelMap[t.Name] = t, embedded on an association
list: overwrite the entry holding the key if present, else append a new
entry (lists built by this function never hold a key twice). -/
def insertTunnel (m : List (String × TunnelConfig)) (t : TunnelConfig) :
    List (String × TunnelConfig) :=
  match m with
  | [] => [(t.name, t)]
  | e :: rest =>
    if e.1 = t.name then (e.1, t) :: rest else e :: insertTunnel rest t

/-- Lookup in the association list embedding of a Go map keyed by name. -/
def lookupTunnel (m : List (String × TunnelConfig)) (name : String) :
    Option TunnelConfig :=
  match m with
  | [] => none
  | e :: rest => if e.1 = name then some e.2 else lookupTunnel rest name

/-- PolicyEngine.MergeTunnels (schema.go lines 113-135), the tunnelMap it
builds: for each policy in input order, for each tunnel, the map entry for
the tunnel's name is assigned (unconditionally overwriting any earlier
entry).  The final conversion of the map to a slice iterates the Go map in
unspecified order and is not embedded; the claims concern per-name lookup. -/
def mergeTunnelMap (policies : List Policy) : List (String × TunnelConfig) :=
  policies.foldl (fun m pol => pol.tunnels.foldl insertTunnel m) []

/-- PolicyEngine.MergeTunnels, the returned slice: the values of the
tunnel map (the Go code iterates the map in unspecified order; the
embedding uses first-insertion order). -/
def MergeTunnels (policies : List Policy) : List TunnelConfig :=
  (mergeTunnelMap policies).map (fun e => e.2)

/-! ### Reconciliation agent (agent package, applyPolicies / watchdogCheck) -/

/-- One call issued by the agent against the IPsecManager backend. -/
inductive BackendCall where
  | create (name : String)
  | update (name : String)
  | delete (name : String)
  | getStatus (name : String)
  | start (name : String)
  deriving DecidableEq

/-- The backend as seen by one applyPolicies pass: the result of
ListTunnels (none = the call returned an error), and whether the
Create/Update/Delete call for a given tunnel name succeeds. -/
structure Backend where
  listResult : Option (List TunnelStatus)
  createOk : String → Bool
  updateOk : String → Bool
  deleteOk : String → Bool

/-- Desired-tunnel map built by applyPolicies (agent.go applyPolicies,
first loop): disabled policies are skipped; every tunnel of an enabled
policy is assigned into the map keyed by its name, later assignments
overwriting earlier ones.  Note: no targeting filter is applied here. -/
def buildDesired (policies : List Policy) : List (String × TunnelConfig) :=
  policies.foldl
    (fun m pol => if ¬pol.enabled then m else pol.tunnels.foldl insertTunnel m) []

/-- The create/update/delete calls issued by one applyPolicies pass over a
desired map (agent.go applyPolicies, lines after the desired map is built):
current names come from ListTunnels (an error is only logged and leaves the
current list empty); each desired tunnel present in current gets Update,
absent gets Create; each current name absent from desired gets Delete.
Failures of individual calls only skip that tunnel's success log (Go
continue) and do not alter which calls are issued.  currentNames is the Go
set map of names; .dedup models its key set.  The Go iteration order over
the desired map is unspecified; the embedding iterates insertion order. -/
def reconcileCalls (b : Backend) (desired : List (String × TunnelConfig)) :
    List BackendCall :=
  let current := match b.listResult with
    | some ts => ts
    | none => []
  let currentNames := (current.map (fun t => t.name)).dedup
  (desired.map fun e =>
    if currentNames.contains e.1 then BackendCall.update e.1 else BackendCall.create e.1)
  ++ (currentNames.filter (fun n => lookupTunnel desired n = none)).map BackendCall.delete

/-- Result of one applyPolicies pass: the issued calls, the recorded
last-applied map (a.currentTunnels = desiredTunnels), and the returned
error.  Every path of the Go function returns nil, so err is none. -/
structure ReconcileResult where
  calls : List BackendCall
  lastApplied : List (String × TunnelConfig)
  err : Option String
  deriving DecidableEq

/-- One applyPolicies reconciliation pass over an explicit desired map. -/
def reconcile (b : Backend) (desired : List (String × TunnelConfig)) :
    ReconcileResult :=
  { calls := reconcileCalls b desired
    lastApplied := desired
    err := none }

/-- agent.applyPolicies: build the desired map from the fetched policies,
then reconcile the backend against it. -/
def applyPolicies (b : Backend) (policies : List Policy) : ReconcileResult :=
  reconcile b (buildDesired policies)

/-- Whether a call succeeds on the given backend (GetStatus/Start are not
issued by applyPolicies and are treated as succeeding). -/
def callSucceeds (b : Backend) : BackendCall → Bool
  | BackendCall.create n => b.createOk n
  | BackendCall.update n => b.updateOk n
  | BackendCall.delete n => b.deleteOk n
  | _ => true

/-- The applyPolicies calls that did not take the error-log branch. -/
def succeededCalls (b : Backend) (desired : List (String × TunnelConfig)) :
    List BackendCall :=
  (reconcileCalls b desired).filter (callSucceeds b)

/-- The backend as seen by one watchdog pass: GetTunnelStatus result per
name (none = the call returned an error) and whether StartTunnel succeeds. -/
structure WatchdogBackend where
  statusOf : String → Option TunnelStatus
  startOk : String → Bool

/-- Calls issued for one entry of the copied tunnel map in watchdogCheck
(agent.go watchdogCheck): skip when AutoStart is false; query status (an
error skips the entry); call StartTunnel once when the state is Down or
Error; a StartTunnel failure is only logged. -/
def watchdogEntryCalls (b : WatchdogBackend) (e : String × TunnelConfig) :
    List BackendCall :=
  if ¬e.2.autoStart then []
  else match b.statusOf e.1 with
    | none => [BackendCall.getStatus e.1]
    | some st =>
      if st.state = StateDown ∨ st.state = StateError then
        [BackendCall.getStatus e.1, BackendCall.start e.1]
      else [BackendCall.getStatus e.1]

/-- agent.watchdogCheck over the copied last-applied tunnel map (the Go map
iteration order is unspecified; the embedding iterates the list order). -/
def watchdogCheck (b : WatchdogBackend) (tunnels : List (String × TunnelConfig)) :
    List BackendCall :=
  tunnels.flatMap (watchdogEntryCalls b)

/-! ### Agent start / sync loop call structure (agent.go Start,
policySyncLoop) -/

/-- A call the agent makes against the policy source. -/
inductive AgentCall where
  | register
  | syncPolicies
  deriving DecidableEq

/-- Calls made by Agent.Start before launching the loops: one register
(its error is only logged) and one initial syncPolicies (its error is only
logged). -/
def startCalls : List AgentCall := [AgentCall.register, AgentCall.syncPolicies]

/-- Calls made by policySyncLoop over n ticks: each tick calls
syncPolicies only; register is never called by any loop. -/
def syncLoopCalls (ticks : Nat) : List AgentCall :=
  List.replicate ticks AgentCall.syncPolicies

/-- All policy-source calls of an agent run: Start, then n sync ticks. -/
def agentCallTrace (ticks : Nat) : List AgentCall :=
  startCalls ++ syncLoopCalls ticks

/-- Return value of Agent.Start as a function of whether register and the
initial sync failed: every path of the Go function returns nil. -/
def startResult (_registerFailed _initialSyncFailed : Bool) : Option String :=
  none

/-! ### Policy validation (schema.go validators) -/

/-- The three rule groups run by PolicyEngine.Validate. -/
inductive RuleGroup where
  | structural
  | security
  | platform
  deriving DecidableEq

/-- One validation failure, mirroring the fmt.Errorf sites of the three
validators; i is the tunnel index and the String its name where the Go
message carries them. -/
inductive ValidationError where
  | policyNameRequired
  | noTunnels
  | tunnelNameRequired (i : Nat) (name : String)
  | localAddressRequired (i : Nat) (name : String)
  | remoteAddressRequired (i : Nat) (name : String)
  | noTrafficSelectors (i : Nat) (name : String)
  | tsLocalSubnetRequired (i : Nat) (name : String) (j : Nat)
  | tsRemoteSubnetRequired (i : Nat) (name : String) (j : Nat)
  | pskSecretRequired (i : Nat) (name : String)
  | pskSecretTooShort (i : Nat) (name : String)
  | certPathRequired (i : Nat) (name : String)
  | keyPathRequired (i : Nat) (name : String)
  | invalidEncryption (i : Nat) (name : String) (alg : String)
  | invalidIntegrity (i : Nat) (name : String) (alg : String)
  | invalidDHGroup (i : Nat) (name : String) (g : String)
  | lifetimeUnspecified (i : Nat) (name : String)
  | lifetimeTooShort (i : Nat) (name : String)
  | lifetimeTooLong (i : Nat) (name : String)
  | gcmRequiresIKEv2 (i : Nat) (name : String)
  deriving DecidableEq

/-- Which validator produced the error. -/
def ValidationError.group : ValidationError → RuleGroup
  | .policyNameRequired => RuleGroup.structural
  | .noTunnels => RuleGroup.structural
  | .tunnelNameRequired _ _ => RuleGroup.structural
  | .localAddressRequired _ _ => RuleGroup.structural
  | .remoteAddressRequired _ _ => RuleGroup.structural
  | .noTrafficSelectors _ _ => RuleGroup.structural
  | .tsLocalSubnetRequired _ _ _ => RuleGroup.structural
  | .tsRemoteSubnetRequired _ _ _ => RuleGroup.structural
  | .pskSecretRequired _ _ => RuleGroup.security
  | .pskSecretTooShort _ _ => RuleGroup.security
  | .certPathRequired _ _ => RuleGroup.security
  | .keyPathRequired _ _ => RuleGroup.security
  | .invalidEncryption _ _ _ => RuleGroup.security
  | .invalidIntegrity _ _ _ => RuleGroup.security
  | .invalidDHGroup _ _ _ => RuleGroup.security
  | .lifetimeUnspecified _ _ => RuleGroup.security
  | .lifetimeTooShort _ _ => RuleGroup.security
  | .lifetimeTooLong _ _ => RuleGroup.security
  | .gcmRequiresIKEv2 _ _ => RuleGroup.platform

/-- Fold a per-element check over a list, keeping the first error; the Nat
argument is the index the Go range loops carry. -/
def firstErr {α : Type} (f : Nat → α → Except ValidationError Unit) :
    Nat → List α → Except ValidationError Unit
  | _, [] => Except.ok ()
  | i, x :: xs =>
    match f i x with
    | Except.error e => Except.error e
    | Except.ok _ => firstErr f (i + 1) xs

/-- Traffic-selector loop of BasicValidator.validateTunnel. -/
def basicCheckSelector (i : Nat) (name : String) (j : Nat) (ts : TrafficSelector) :
    Except ValidationError Unit :=
  if ts.localSubnet = "" then Except.error (ValidationError.tsLocalSubnetRequired i name j)
  else if ts.remoteSubnet = "" then Except.error (ValidationError.tsRemoteSubnetRequired i name j)
  else Except.ok ()

/-- BasicValidator.validateTunnel (schema.go lines 159-187). -/
def basicCheckTunnel (i : Nat) (t : TunnelConfig) : Except ValidationError Unit :=
  if t.name = "" then Except.error (ValidationError.tunnelNameRequired i t.name)
  else if t.localAddress = "" then Except.error (ValidationError.localAddressRequired i t.name)
  else if t.remoteAddress = "" then Except.error (ValidationError.remoteAddressRequired i t.name)
  else if t.trafficSelectors = [] then Except.error (ValidationError.noTrafficSelectors i t.name)
  else firstErr (basicCheckSelector i t.name) 0 t.trafficSelectors

/-- BasicValidator.Validate (schema.go lines 140-157). -/
def BasicValidator.validate (p : Policy) : Except ValidationError Unit :=
  if p.name = "" then Except.error ValidationError.policyNameRequired
  else if p.tunnels = [] then Except.error ValidationError.noTunnels
  else firstErr basicCheckTunnel 0 p.tunnels

/-- SecurityValidator.isValidEncryption. -/
def isValidEncryption (alg : EncryptionAlgorithm) : Bool :=
  [EncryptionAES128, EncryptionAES256, EncryptionAES128GCM,
    EncryptionAES256GCM, Encryption3DES].contains alg

/-- SecurityValidator.isValidIntegrity. -/
def isValidIntegrity (alg : IntegrityAlgorithm) : Bool :=
  [IntegritySHA1, IntegritySHA256, IntegritySHA384, IntegritySHA512].contains alg

/-- SecurityValidator.isValidDHGroup. -/
def isValidDHGroup (g : DHGroup) : Bool :=
  [DHGroupModp1024, DHGroupModp1536, DHGroupModp2048, DHGroupModp3072,
    DHGroupModp4096, DHGroupModp8192, DHGroupECP256, DHGroupECP384,
    DHGroupECP521].contains g

/-- Per-tunnel body of SecurityValidator.Validate (schema.go lines
193-233), flattening the Go if/else-if structure into a first-failure
chain (PSK and certificate branches are mutually exclusive since the auth
type is a single string). -/
def securityCheckTunnel (i : Nat) (t : TunnelConfig) : Except ValidationError Unit :=
  if t.auth.type = AuthPSK ∧ t.auth.secret = "" then
    Except.error (ValidationError.pskSecretRequired i t.name)
  else if t.auth.type = AuthPSK ∧ t.auth.secret.length < 8 then
    Except.error (ValidationError.pskSecretTooShort i t.name)
  else if t.auth.type = AuthCertificate ∧ t.auth.certPath = "" then
    Except.error (ValidationError.certPathRequired i t.name)
  else if t.auth.type = AuthCertificate ∧ t.auth.keyPath = "" then
    Except.error (ValidationError.keyPathRequired i t.name)
  else if ¬isValidEncryption t.crypto.encryption then
    Except.error (ValidationError.invalidEncryption i t.name t.crypto.encryption)
  else if ¬isValidIntegrity t.crypto.integrity then
    Except.error (ValidationError.invalidIntegrity i t.name t.crypto.integrity)
  else if ¬isValidDHGroup t.crypto.dhGroup then
    Except.error (ValidationError.invalidDHGroup i t.name t.crypto.dhGroup)
  else if t.crypto.lifetime = 0 then
    Except.error (ValidationError.lifetimeUnspecified i t.name)
  else if t.crypto.lifetime < 5 * minute then
    Except.error (ValidationError.lifetimeTooShort i t.name)
  else if t.crypto.lifetime > 24 * hour then
    Except.error (ValidationError.lifetimeTooLong i t.name)
  else Except.ok ()

/-- SecurityValidator.Validate (schema.go lines 192-237). -/
def SecurityValidator.validate (p : Policy) : Except ValidationError Unit :=
  firstErr securityCheckTunnel 0 p.tunnels

/-- Per-tunnel body of PlatformCompatibilityValidator.Validate (schema.go
lines 296-319); the AH / ESP+AH branches are empty in the source (warn
only) and impose no check. -/
def platformCheckTunnel (i : Nat) (t : TunnelConfig) : Except ValidationError Unit :=
  if (t.crypto.encryption = EncryptionAES128GCM ∨
      t.crypto.encryption = EncryptionAES256GCM) ∧ t.crypto.ikeVersion ≠ IKEv2 then
    Except.error (ValidationError.gcmRequiresIKEv2 i t.name)
  else Except.ok ()

/-- PlatformCompatibilityValidator.Validate. -/
def PlatformCompatibilityValidator.validate (p : Policy) : Except ValidationError Unit :=
  firstErr platformCheckTunnel 0 p.tunnels

/-- PolicyEngine.Validate (schema.go lines 68-76): the validators in the
order installed by NewPolicyEngine (Basic, Security,
PlatformCompatibility), stopping at the first error. -/
def Validate (p : Policy) : Except ValidationError Unit :=
  match BasicValidator.validate p with
  | Except.error e => Except.error e
  | Except.ok _ =>
    match SecurityValidator.validate p with
    | Except.error e => Except.error e
    | Except.ok _ => PlatformCompatibilityValidator.validate p

/-! ### Concrete fixtures for witnesses and counterexamples -/

/-- A crypto suite passing every security and platform rule. -/
def sampleCrypto : CryptoConfig :=
  { encryption := EncryptionAES256, integrity := IntegritySHA256,
    dhGroup := DHGroupModp2048, ikeVersion := IKEv2, lifetime := hour }

/-- A second valid crypto suite, different from sampleCrypto. -/
def sampleCryptoAlt : CryptoConfig :=
  { encryption := EncryptionAES128, integrity := IntegritySHA1,
    dhGroup := DHGroupModp1024, ikeVersion := IKEv2, lifetime := hour }

def sampleSelector : TrafficSelector :=
  { localSubnet := "10.0.1.0/24", remoteSubnet := "10.0.2.0/24",
    protocol := "", localPort := 0, remotePort := 0 }

def sampleDPD : DPDConfig := { delay := 30 * second, action := "restart" }

/-- A structurally valid PSK tunnel with the given name, crypto, secret and
autostart flag. -/
def mkTunnel (n : String) (c : CryptoConfig) (secret : String) (auto : Bool) :
    TunnelConfig :=
  { name := n, mode := ModeESPTunnel, localAddress := "10.0.1.1",
    remoteAddress := "10.0.2.1", localID := "", remoteID := "",
    crypto := c,
    auth := { type := AuthPSK, secret := secret, certPath := "",
              keyPath := "", caCertPath := "" },
    trafficSelectors := [sampleSelector], dpd := sampleDPD,
    autoStart := auto, mark := "" }

def mkPolicy (i n : String) (prio : Int) (en : Bool) (tuns : List TunnelConfig)
    (targets : List String) : Policy :=
  { id := i, name := n, description := "", version := 1, createdAt := 0,
    updatedAt := 0, enabled := en, tunnels := tuns, appliesTo := targets,
    priority := prio }

def mkStatus (n : String) (st : TunnelState) : TunnelStatus :=
  { name := n, state := st, localAddress := "", remoteAddress := "",
    establishedAt := 0, lastRekeyAt := 0, bytesIn := 0, bytesOut := 0,
    packetsIn := 0, packetsOut := 0, uptime := 0, errorMessage := "" }

def mkPeer (i : String) (tags : List String) : PeerInfo :=
  { id := i, hostname := "host", platform := "linux", ipAddress := "127.0.0.1",
    version := "0.1.0", tags := tags, lastSeenAt := 0, registeredAt := 0,
    status := "online" }

/-- Tunnel vpn1 as defined by the high-priority policy. -/
def vpn1High : TunnelConfig := mkTunnel "vpn1" sampleCrypto "SuperSecret1" true

/-- Tunnel vpn1 as defined by the low-priority policy, with different
crypto. -/
def vpn1Low : TunnelConfig := mkTunnel "vpn1" sampleCryptoAlt "SuperSecret2" true

/-- Enabled policy of priority 100 defining tunnel "vpn1". -/
def polHigh : Policy := mkPolicy "p-high" "policy-high" 100 true [vpn1High] []

/-- Enabled policy of priority 10 defining tunnel "vpn1" with other crypto. -/
def polLow : Policy := mkPolicy "p-low" "policy-low" 10 true [vpn1Low] []

/-- The peer used in counterexamples: id "me", no tags. -/
def peerMe : PeerInfo := mkPeer "me" []

/-- A tunnel carried by a policy that does not target peerMe. -/
def tunOther : TunnelConfig := mkTunnel "tun1" sampleCrypto "SuperSecret1" true

/-- Enabled policy targeting only "other-node" (neither peerMe's id, nor
"*", nor one of its tags). -/
def polOther : Policy := mkPolicy "p-other" "policy-other" 50 true [tunOther] ["other-node"]

/-- A backend whose ListTunnels returns an empty list and every call
succeeds. -/
def bEmptyList : Backend :=
  { listResult := some [], createOk := fun _ => true,
    updateOk := fun _ => true, deleteOk := fun _ => true }

/-- A backend whose ListTunnels call fails. -/
def bListFails : Backend :=
  { listResult := none, createOk := fun _ => true,
    updateOk := fun _ => true, deleteOk := fun _ => true }

/-- Peer with two tags, for the duplicate-append counterexample. -/
def peerTags : PeerInfo := mkPeer "me" ["t1", "t2"]

/-- Enabled policy whose AppliesTo lists two tags that peerTags both
carries. -/
def polTags : Policy :=
  mkPolicy "p-tags" "policy-tags" 5 true [mkTunnel "tt" sampleCrypto "SuperSecret1" true]
    ["t1", "t2"]

/-- Enabled policy of priority 1 applying to all nodes. -/
def polPrio1 : Policy :=
  mkPolicy "p-prio1" "policy-prio1" 1 true [mkTunnel "pa" sampleCrypto "SuperSecret1" true] []

/-- Enabled policy of priority 2 applying to all nodes. -/
def polPrio2 : Policy :=
  mkPolicy "p-prio2" "policy-prio2" 2 true [mkTunnel "pb" sampleCrypto "SuperSecret1" true] []

/-- Structurally valid policy whose only tunnel uses PSK auth with an empty
secret. -/
def polEmptyPSK : Policy :=
  mkPolicy "p-c8" "policy-c8" 0 true [mkTunnel "tun-empty" sampleCrypto "" true] []

/-- Structurally valid policy whose only tunnel uses PSK auth with the
five-character secret "short". -/
def polShortPSK : Policy :=
  mkPolicy "p-c8w" "policy-c8w" 0 true [mkTunnel "tun-short" sampleCrypto "short" true] []

/-- Current backend tunnel "b" (Established). -/
def stB0 : TunnelStatus := mkStatus "b" StateEstablished

/-- Current backend tunnel "c" (Down). -/
def stC0 : TunnelStatus := mkStatus "c" StateDown

/-- Backend whose current tunnel set is listed as b and c and every call
succeeds. -/
def bBC : Backend :=
  { listResult := some [stB0, stC0], createOk := fun _ => true,
    updateOk := fun _ => true, deleteOk := fun _ => true }

/-- Backend whose current tunnel set is listed as b and c; Create fails,
Update and Delete succeed. -/
def bBCFailCreate : Backend :=
  { listResult := some [stB0, stC0], createOk := fun _ => false,
    updateOk := fun _ => true, deleteOk := fun _ => true }

/-- Desired mapping holding tunnels a and b. -/
def desiredAB : List (String × TunnelConfig) := [("a", vpn1High), ("b", vpn1Low)]

/-- Tunnel with autostart enabled, for the watchdog witness. -/
def tunAuto : TunnelConfig := mkTunnel "t1" sampleCrypto "SuperSecret1" true

/-- Watchdog backend reporting every tunnel Down and failing every
StartTunnel call. -/
def wdDownBackend : WatchdogBackend :=
  { statusOf := fun n => some (mkStatus n StateDown), startOk := fun _ => false }

/-- The last tunnel named k in a list (the value a sequence of Go map
assignments keyed by name leaves for k), phrased as the claims' spec reads:
the tunnel a name is mapped to after all assignments. -/
def lastNamed (k : String) (ts : List TunnelConfig) : Option TunnelConfig :=
  ts.foldl (fun acc t => if t.name = k then some t else acc) none

/-! ### Theorems -/

/-- C1: MergeTunnels does not return the highest-priority definition of a
shared tunnel name.  With the two enabled policies listed in descending
priority order (priority 100 before priority 10), both defining "vpn1" with
different crypto, the merged map holds the priority-10 definition: each
later policy unconditionally overwrites the map entry, so the last-listed
policy wins, contradicting the claim and the function's own comment that
higher-priority policies override lower-priority ones. -/
theorem c1_mergeTunnels_last_writer_wins :
    polHigh.priority > polLow.priority ∧
    vpn1High ≠ vpn1Low ∧
    lookupTunnel (mergeTunnelMap [polHigh, polLow]) "vpn1" = some vpn1Low := by
  refine ⟨by decide, by decide, ?_⟩
  rfl

/-- Inserting a tunnel re-keys exactly its own name. -/
theorem lookupTunnel_insertTunnel (m : List (String × TunnelConfig))
    (t : TunnelConfig) (k : String) :
    lookupTunnel (insertTunnel m t) k =
      if k = t.name then some t else lookupTunnel m k := by
  induction m with
  | nil =>
    by_cases hk : k = t.name
    · simp [insertTunnel, lookupTunnel, hk]
    · simp [insertTunnel, lookupTunnel, hk, Ne.symm hk]
  | cons e rest ih =>
    by_cases he : e.1 = t.name
    · by_cases hk : e.1 = k
      · simp [insertTunnel, lookupTunnel, he, hk, hk.symm.trans he]
      · have htk : ¬t.name = k := fun h => hk (he.trans h)
        simp [insertTunnel, lookupTunnel, he, hk, htk, Ne.symm htk]
    · by_cases hk : e.1 = k
      · have hkt : ¬k = t.name := fun h => he (hk.trans h)
        simp [insertTunnel, lookupTunnel, he, hk, hkt]
      · simp [insertTunnel, lookupTunnel, he, hk, ih]

/-- Folding tunnel insertions over an association list behaves, under
lookup, like folding a last-writer update of the looked-up value. -/
theorem lookupTunnel_foldl_insert (ts : List TunnelConfig)
    (m : List (String × TunnelConfig)) (k : String) :
    lookupTunnel (ts.foldl insertTunnel m) k =
      ts.foldl (fun acc t => if t.name = k then some t else acc) (lookupTunnel m k) := by
  induction ts generalizing m with
  | nil => rfl
  | cons t ts ih =>
    simp only [List.foldl_cons]
    rw [ih, lookupTunnel_insertTunnel]
    by_cases h : t.name = k
    · rw [if_pos h.symm, if_pos h]
    · rw [if_neg (fun hh => h hh.symm), if_neg h]

/-- The desired map built by applyPolicies maps each name to the last
tunnel with that name among the tunnels of the enabled policies. -/
theorem lookup_buildDesired (policies : List Policy) (k : String) :
    lookupTunnel (buildDesired policies) k =
      lastNamed k ((policies.filter (fun p => p.enabled)).flatMap (fun p => p.tunnels)) := by
  suffices h : ∀ (ps : List Policy) (m : List (String × TunnelConfig)),
      lookupTunnel
          (ps.foldl
            (fun m pol => if ¬pol.enabled then m else pol.tunnels.foldl insertTunnel m) m) k =
        ((ps.filter (fun p => p.enabled)).flatMap (fun p => p.tunnels)).foldl
          (fun acc t => if t.name = k then some t else acc) (lookupTunnel m k) by
    exact h policies []
  intro ps
  induction ps with
  | nil => intro m; rfl
  | cons pol ps ih =>
    intro m
    by_cases hen : pol.enabled
    · have h1 : (if ¬pol.enabled then m else pol.tunnels.foldl insertTunnel m) =
          pol.tunnels.foldl insertTunnel m := by simp [hen]
      simp only [List.foldl_cons, h1]
      rw [ih, lookupTunnel_foldl_insert,
        List.filter_cons_of_pos (by simpa using hen), List.flatMap_cons,
        List.foldl_append]
    · have h1 : (if ¬pol.enabled then m else pol.tunnels.foldl insertTunnel m) = m := by
        simp [hen]
      simp only [List.foldl_cons, h1]
      rw [ih, List.filter_cons_of_neg (by simpa using hen)]

/-- C2 (amended): applyPolicies does not re-filter by node identity.  The
desired mapping it records and applies to the backend maps each tunnel
name to the last tunnel bearing that name among the tunnels of the
enabled fetched policies, regardless of their targets; disabled policies
contribute nothing, but an enabled policy whose targets match nothing
about the agent still contributes its tunnels. -/
theorem c2_applyPolicies_enabled_only_filter (b : Backend)
    (policies : List Policy) (k : String) :
    lookupTunnel (applyPolicies b policies).lastApplied k =
      lastNamed k ((policies.filter (fun p => p.enabled)).flatMap (fun p => p.tunnels)) :=
  lookup_buildDesired policies k

/-- Elements produced by the target scan are the scanned policy, and one
is produced precisely when some target matches the peer's id, the
wildcard, or one of the peer's tags. -/
theorem mem_matchTargets (pol x : Policy) (peer : PeerInfo) (ts : List String) :
    x ∈ matchTargets pol peer ts ↔
      x = pol ∧ ∃ target ∈ ts,
        target = peer.id ∨ target = "*" ∨ target ∈ peer.tags := by
  induction ts with
  | nil => simp [matchTargets]
  | cons target rest ih =>
    by_cases h1 : target = peer.id ∨ target = "*"
    · simp only [matchTargets, if_pos h1, List.mem_singleton]
      constructor
      · intro hx
        refine ⟨hx, target, List.mem_cons_self _ _, ?_⟩
        rcases h1 with h | h
        · exact Or.inl h
        · exact Or.inr (Or.inl h)
      · rintro ⟨hx, -⟩
        exact hx
    · by_cases h2 : target ∈ peer.tags
      · simp only [matchTargets, if_neg h1, if_pos h2, List.mem_cons, ih]
        constructor
        · rintro (hx | ⟨hx, t', ht', hm⟩)
          · exact ⟨hx, target, Or.inl rfl, Or.inr (Or.inr h2)⟩
          · exact ⟨hx, t', Or.inr ht', hm⟩
        · rintro ⟨hx, -⟩
          exact Or.inl hx
      · simp only [matchTargets, if_neg h1, if_neg h2, ih]
        constructor
        · rintro ⟨hx, t', ht', hm⟩
          exact ⟨hx, t', List.mem_cons_of_mem _ ht', hm⟩
        · rintro ⟨hx, t', ht', hm⟩
          rcases List.mem_cons.mp ht' with rfl | ht'
          · rcases hm with hm | hm | hm
            · exact absurd (Or.inl hm) h1
            · exact absurd (Or.inr hm) h1
            · exact absurd hm h2
          · exact ⟨hx, t', ht', hm⟩

/-- With desired tunnels A and B and current tunnels B and C (all names
distinct), one applyPolicies pass issues exactly the calls Create(A),
Update(B), Delete(C), in the embedding's iteration order. -/
theorem reconcileCalls_create_update_delete
    (A B C : String) (cfgA cfgB : TunnelConfig) (stB stC : TunnelStatus)
    (cok uok dok : String → Bool)
    (hAB : A ≠ B) (hAC : A ≠ C) (hBC : B ≠ C)
    (hB : stB.name = B) (hC : stC.name = C) :
    reconcileCalls ⟨some [stB, stC], cok, uok, dok⟩ [(A, cfgA), (B, cfgB)] =
      [BackendCall.create A, BackendCall.update B, BackendCall.delete C] := by
  have hmapped : ([stB, stC].map fun t => t.name) = [B, C] := by
    rw [List.map_cons, List.map_cons, List.map_nil, hB, hC]
  have hND : (([stB, stC].map fun t => t.name)).dedup = [B, C] := by
    rw [hmapped]
    exact List.dedup_eq_self.mpr (by simp [hBC])
  unfold reconcileCalls
  simp only [hND]
  simp [List.contains, lookupTunnel, hAB, hAC, hBC,
    Ne.symm hAB, Ne.symm hAC, Ne.symm hBC]

/-- C5: for every desired mapping holding A and B and current backend set
holding B and C (names distinct), one reconciliation pass issues exactly
one Create(A), one Update(B) and one Delete(C), and no other
create/update/delete call (the three counts together with total length 3
leave room for nothing else). -/
theorem c5_reconcile_convergence
    (A B C : String) (cfgA cfgB : TunnelConfig) (stB stC : TunnelStatus)
    (cok uok dok : String → Bool)
    (hAB : A ≠ B) (hAC : A ≠ C) (hBC : B ≠ C)
    (hB : stB.name = B) (hC : stC.name = C) :
    ((reconcile ⟨some [stB, stC], cok, uok, dok⟩
        [(A, cfgA), (B, cfgB)]).calls.count (BackendCall.create A) = 1) ∧
    ((reconcile ⟨some [stB, stC], cok, uok, dok⟩
        [(A, cfgA), (B, cfgB)]).calls.count (BackendCall.update B) = 1) ∧
    ((reconcile ⟨some [stB, stC], cok, uok, dok⟩
        [(A, cfgA), (B, cfgB)]).calls.count (BackendCall.delete C) = 1) ∧
    ((reconcile ⟨some [stB, stC], cok, uok, dok⟩
        [(A, cfgA), (B, cfgB)]).calls.length = 3) := by
  have hcalls : (reconcile ⟨some [stB, stC], cok, uok, dok⟩
      [(A, cfgA), (B, cfgB)]).calls =
      [BackendCall.create A, BackendCall.update B, BackendCall.delete C] :=
    reconcileCalls_create_update_delete A B C cfgA cfgB stB stC cok uok dok
      hAB hAC hBC hB hC
  rw [hcalls]
  refine ⟨?_, ?_, ?_, rfl⟩ <;> simp [List.count_cons]

/-- C5 witness at concrete inputs. -/
theorem c5_reconcile_convergence_witness :
    ((reconcile bBC desiredAB).calls.count (BackendCall.create "a") = 1) ∧
    ((reconcile bBC desiredAB).calls.count (BackendCall.update "b") = 1) ∧
    ((reconcile bBC desiredAB).calls.count (BackendCall.delete "c") = 1) ∧
    ((reconcile bBC desiredAB).calls.length = 3) :=
  c5_reconcile_convergence "a" "b" "c" vpn1High vpn1Low stB0 stC0
    (fun _ => true) (fun _ => true) (fun _ => true)
    (by decide) (by decide) (by decide) rfl rfl

/-- C6: with desired A and B and current B and C, a failing Create(A) does
not prevent the pass from issuing Update(B) and Delete(C): both are still
issued and, succeeding on the backend, both take the success branch, while
the failed Create(A) is the only call that does not. -/
theorem c6_partial_failure_isolation
    (A B C : String) (cfgA cfgB : TunnelConfig) (stB stC : TunnelStatus)
    (cok uok dok : String → Bool)
    (hAB : A ≠ B) (hAC : A ≠ C) (hBC : B ≠ C)
    (hB : stB.name = B) (hC : stC.name = C)
    (hfail : cok A = false) (hu : uok B = true) (hd : dok C = true) :
    BackendCall.update B ∈
      (reconcile ⟨some [stB, stC], cok, uok, dok⟩ [(A, cfgA), (B, cfgB)]).calls ∧
    BackendCall.delete C ∈
      (reconcile ⟨some [stB, stC], cok, uok, dok⟩ [(A, cfgA), (B, cfgB)]).calls ∧
    succeededCalls ⟨some [stB, stC], cok, uok, dok⟩ [(A, cfgA), (B, cfgB)] =
      [BackendCall.update B, BackendCall.delete C] := by
  have hcalls : reconcileCalls ⟨some [stB, stC], cok, uok, dok⟩
      [(A, cfgA), (B, cfgB)] =
      [BackendCall.create A, BackendCall.update B, BackendCall.delete C] :=
    reconcileCalls_create_update_delete A B C cfgA cfgB stB stC cok uok dok
      hAB hAC hBC hB hC
  have hcalls2 : (reconcile ⟨some [stB, stC], cok, uok, dok⟩
      [(A, cfgA), (B, cfgB)]).calls =
      [BackendCall.create A, BackendCall.update B, BackendCall.delete C] := hcalls
  refine ⟨?_, ?_, ?_⟩
  · rw [hcalls2]; simp
  · rw [hcalls2]; simp
  · unfold succeededCalls
    rw [hcalls]
    simp [callSucceeds, hfail, hu, hd]

/-- C6 witness at concrete inputs: Create fails on this backend, Update
and Delete succeed. -/
theorem c6_partial_failure_isolation_witness :
    BackendCall.update "b" ∈ (reconcile bBCFailCreate desiredAB).calls ∧
    BackendCall.delete "c" ∈ (reconcile bBCFailCreate desiredAB).calls ∧
    succeededCalls bBCFailCreate desiredAB =
      [BackendCall.update "b", BackendCall.delete "c"] :=
  c6_partial_failure_isolation "a" "b" "c" vpn1High vpn1Low stB0 stC0
    (fun _ => false) (fun _ => true) (fun _ => true)
    (by decide) (by decide) (by decide) rfl rfl rfl rfl rfl

theorem watchdogCheck_cons (b : WatchdogBackend) (e : String × TunnelConfig)
    (rest : List (String × TunnelConfig)) :
    watchdogCheck b (e :: rest) = watchdogEntryCalls b e ++ watchdogCheck b rest := by
  simp [watchdogCheck]

/-- An entry for another tunnel contributes no Start call for this name. -/
theorem watchdogEntryCalls_count_start_ne (b : WatchdogBackend)
    (e : String × TunnelConfig) (name : String) (h : e.1 ≠ name) :
    (watchdogEntryCalls b e).count (BackendCall.start name) = 0 := by
  by_cases ha : e.2.autoStart
  · cases hst : b.statusOf e.1 with
    | none => simp [watchdogEntryCalls, ha, hst]
    | some st =>
      by_cases hd : st.state = StateDown ∨ st.state = StateError
      · simp [watchdogEntryCalls, ha, hst, hd, List.count_cons, h]
      · simp [watchdogEntryCalls, ha, hst, hd]
  · simp [watchdogEntryCalls, ha]

/-- A name carried by no entry of the pass receives no Start call. -/
theorem watchdogCheck_count_start_notmem (b : WatchdogBackend)
    (tunnels : List (String × TunnelConfig)) (name : String)
    (h : name ∉ tunnels.map Prod.fst) :
    (watchdogCheck b tunnels).count (BackendCall.start name) = 0 := by
  induction tunnels with
  | nil => rfl
  | cons e rest ih =>
    rw [watchdogCheck_cons, List.count_append]
    rw [List.map_cons] at h
    have h1 : e.1 ≠ name := fun hh => h (hh ▸ List.mem_cons_self _ _)
    have h2 : name ∉ rest.map Prod.fst := fun hh => h (List.mem_cons_of_mem _ hh)
    rw [watchdogEntryCalls_count_start_ne b e name h1, ih h2]

/-- With unique names, the Start-call count of a pass for a name equals
the contribution of that name's entry alone. -/
theorem watchdogCheck_count_start_eq_entry (b : WatchdogBackend)
    (tunnels : List (String × TunnelConfig)) (name : String) (cfg : TunnelConfig)
    (hnd : (tunnels.map Prod.fst).Nodup) (hmem : (name, cfg) ∈ tunnels) :
    (watchdogCheck b tunnels).count (BackendCall.start name) =
      (watchdogEntryCalls b (name, cfg)).count (BackendCall.start name) := by
  induction tunnels with
  | nil => cases hmem
  | cons e rest ih =>
    rw [List.map_cons, List.nodup_cons] at hnd
    rw [watchdogCheck_cons, List.count_append]
    rcases List.mem_cons.mp hmem with rfl | hmem'
    · rw [watchdogCheck_count_start_notmem b rest name hnd.1, Nat.add_zero]
    · have h1 : e.1 ≠ name := fun h =>
        hnd.1 (h ▸ List.mem_map_of_mem Prod.fst hmem')
      rw [watchdogEntryCalls_count_start_ne b e name h1, ih hnd.2 hmem',
        Nat.zero_add]

/-- C7: in one watchdog pass over a last-applied set with unique names, a
tunnel with autostart whose reported status is Down or Error receives
exactly one Start call; a tunnel with autostart false receives none,
whatever its state; and the pass trace does not depend on whether Start
succeeds, so a failed Start is not retried within the pass. -/
theorem c7_watchdog (b : WatchdogBackend) (tunnels : List (String × TunnelConfig))
    (name : String) (cfg : TunnelConfig)
    (hnd : (tunnels.map Prod.fst).Nodup) (hmem : (name, cfg) ∈ tunnels) :
    (cfg.autoStart = true → ∀ st, b.statusOf name = some st →
      (st.state = StateDown ∨ st.state = StateError) →
      (watchdogCheck b tunnels).count (BackendCall.start name) = 1) ∧
    (cfg.autoStart = false →
      (watchdogCheck b tunnels).count (BackendCall.start name) = 0) ∧
    watchdogCheck { statusOf := b.statusOf, startOk := fun _ => false } tunnels =
      watchdogCheck b tunnels := by
  have hentry := watchdogCheck_count_start_eq_entry b tunnels name cfg hnd hmem
  refine ⟨?_, ?_, ?_⟩
  · intro ha st hst hd
    rw [hentry]
    simp [watchdogEntryCalls, ha, hst, hd, List.count_cons]
  · intro ha
    rw [hentry]
    simp [watchdogEntryCalls, ha]
  · cases b
    rfl

/-- C7 witness: one autostarted tunnel reported Down, on a backend whose
StartTunnel fails, receives exactly one Start call in the pass. -/
theorem c7_watchdog_witness :
    (watchdogCheck wdDownBackend [("t1", tunAuto)]).count (BackendCall.start "t1") = 1 :=
  (c7_watchdog wdDownBackend [("t1", tunAuto)] "t1" tunAuto (by decide) (by decide)).1
    rfl (mkStatus "t1" StateDown) rfl (Or.inl rfl)

/-- C3 (amended): FilterPoliciesForPeer includes (at least once) exactly
the enabled policies whose targets set is empty or holds the peer's id,
the wildcard, or one of the peer's tags, and no other policy — but a
policy may appear more than once: a tag-matching target appends it
without ending the target scan (see the counterexample). -/
theorem c3_filter_membership (policies : List Policy) (peer : PeerInfo) (pol : Policy) :
    pol ∈ FilterPoliciesForPeer policies peer ↔
      pol ∈ policies ∧ pol.enabled = true ∧
        (pol.appliesTo = [] ∨ ∃ target ∈ pol.appliesTo,
          target = peer.id ∨ target = "*" ∨ target ∈ peer.tags) := by
  unfold FilterPoliciesForPeer
  rw [List.mem_flatMap]
  constructor
  · rintro ⟨q, hq, hmem⟩
    by_cases hen : q.enabled
    · rw [if_neg (by simp [hen])] at hmem
      by_cases happ : q.appliesTo = []
      · rw [if_pos happ] at hmem
        rcases List.mem_singleton.mp hmem with rfl
        exact ⟨hq, hen, Or.inl happ⟩
      · rw [if_neg happ] at hmem
        obtain ⟨rfl, t', ht', hm⟩ := (mem_matchTargets q pol peer _).mp hmem
        exact ⟨hq, hen, Or.inr ⟨t', ht', hm⟩⟩
    · rw [if_pos (by simp [hen])] at hmem
      exact absurd hmem (List.not_mem_nil pol)
  · rintro ⟨hq, hen, hcond⟩
    refine ⟨pol, hq, ?_⟩
    rw [if_neg (by simp [hen])]
    by_cases happ : pol.appliesTo = []
    · rw [if_pos happ]
      exact List.mem_singleton.mpr rfl
    · rw [if_neg happ]
      rcases hcond with h | ⟨t', ht', hm⟩
      · exact absurd h happ
      · exact (mem_matchTargets pol pol peer _).mpr ⟨rfl, t', ht', hm⟩

/-- C3 counterexample: polTags is enabled and applicable to peerTags (its
targets "t1" and "t2" are both tags of the peer), yet FilterPoliciesForPeer
returns it twice — each tag-matching target appends it again, because the
Go break only leaves the inner tag loop.  This refutes the claim that each
applicable policy is included exactly once. -/
theorem c3_filter_duplicate_counterexample :
    polTags.enabled = true ∧
    ("t1" ∈ polTags.appliesTo ∧ "t1" ∈ peerTags.tags) ∧
    (FilterPoliciesForPeer [polTags] peerTags).count polTags = 2 := by
  refine ⟨rfl, ⟨by decide, by decide⟩, by decide⟩

/-- C4 (amended): FilterPoliciesForPeer performs no sorting: it is
append-homomorphic, so the returned sequence preserves the relative input
order of the applicable policies; it is not ordered by descending priority
(see the counterexample), and names play no part in the order. -/
theorem c4_filter_order_preserving (ps qs : List Policy) (peer : PeerInfo) :
    FilterPoliciesForPeer (ps ++ qs) peer =
      FilterPoliciesForPeer ps peer ++ FilterPoliciesForPeer qs peer := by
  unfold FilterPoliciesForPeer
  simp [List.flatMap_append]

/-- C4 counterexample: two enabled apply-to-all policies submitted in
ascending priority order come back in that same order, so the returned
sequence is not ordered by descending priority. -/
theorem c4_filter_not_sorted_counterexample :
    FilterPoliciesForPeer [polPrio1, polPrio2] peerMe = [polPrio1, polPrio2] ∧
    polPrio1.priority < polPrio2.priority := by
  refine ⟨rfl, by decide⟩

/-- C2 counterexample: polOther is enabled but targets only "other-node",
which matches neither peerMe's id "me", nor the wildcard, nor any of
peerMe's (empty) tags — the agent's own Policy Engine would exclude it —
yet applyPolicies puts its tunnel into the desired mapping and issues a
Create call for it against the backend. -/
theorem c2_no_refilter_counterexample :
    FilterPoliciesForPeer [polOther] peerMe = [] ∧
    lookupTunnel (applyPolicies bEmptyList [polOther]).lastApplied "tun1" = some tunOther ∧
    (applyPolicies bEmptyList [polOther]).calls = [BackendCall.create "tun1"] := by
  refine ⟨rfl, rfl, rfl⟩

/-- firstErr reports the error of position i when all earlier positions
pass. -/
theorem firstErr_error_at {α : Type} (f : Nat → α → Except ValidationError Unit)
    (e : ValidationError) :
    ∀ (l : List α) (k i : Nat) (x : α), l[i]? = some x →
      (∀ j y, j < i → l[j]? = some y → f (k + j) y = Except.ok ()) →
      f (k + i) x = Except.error e → firstErr f k l = Except.error e := by
  intro l
  induction l with
  | nil =>
    intro k i x hx
    simp at hx
  | cons z zs ih =>
    intro k i x hx hprev herr
    cases i with
    | zero =>
      rw [List.getElem?_cons_zero] at hx
      injection hx with hzx
      subst hzx
      rw [Nat.add_zero] at herr
      simp only [firstErr, herr]
    | succ n =>
      rw [List.getElem?_cons_succ] at hx
      have h0 : f k z = Except.ok () := by
        have := hprev 0 z (Nat.succ_pos n) (by rw [List.getElem?_cons_zero])
        simpa using this
      simp only [firstErr, h0]
      refine ih (k + 1) n x hx ?_ ?_
      · intro j y hj hy
        have := hprev (j + 1) y (Nat.succ_lt_succ hj) (by rw [List.getElem?_cons_succ]; exact hy)
        have harith : k + (j + 1) = k + 1 + j := by omega
        rwa [harith] at this
      · have harith : k + (n + 1) = k + 1 + n := by omega
        rwa [harith] at herr

/-- C8 (amended): for a structurally valid policy whose tunnel i uses PSK
auth with a non-empty secret shorter than 8 characters, provided no
earlier tunnel fails a security rule, Validate returns the security-group
error citing the PSK length (validation runs structural, then security,
then platform, failing fast); an empty PSK secret instead produces the
security-group error citing the missing secret (see the counterexample). -/
theorem c8_psk_length_security_error (p : Policy) (i : Nat) (t : TunnelConfig)
    (hbasic : BasicValidator.validate p = Except.ok ())
    (ht : p.tunnels[i]? = some t)
    (hprev : ∀ j t', j < i → p.tunnels[j]? = some t' →
      securityCheckTunnel j t' = Except.ok ())
    (hpsk : t.auth.type = AuthPSK)
    (hne : t.auth.secret ≠ "")
    (hshort : t.auth.secret.length < 8) :
    Validate p = Except.error (ValidationError.pskSecretTooShort i t.name) ∧
    (ValidationError.pskSecretTooShort i t.name).group = RuleGroup.security := by
  have hst : securityCheckTunnel i t =
      Except.error (ValidationError.pskSecretTooShort i t.name) := by
    unfold securityCheckTunnel
    rw [if_neg (fun h => hne h.2), if_pos ⟨hpsk, hshort⟩]
  have hsec : SecurityValidator.validate p =
      Except.error (ValidationError.pskSecretTooShort i t.name) := by
    unfold SecurityValidator.validate
    refine firstErr_error_at securityCheckTunnel _ p.tunnels 0 i t ht ?_ ?_
    · intro j y hj hy
      have := hprev j y hj hy
      simpa using this
    · simpa using hst
  refine ⟨?_, rfl⟩
  simp only [Validate, hbasic, hsec]

/-- C8 counterexample: a structurally valid policy whose only tunnel has a
PSK secret of length 0 (< 8 characters) makes Validate return the
security-group error citing the missing secret, not the PSK length, so
the claim's conclusion fails at this input. -/
theorem c8_empty_secret_counterexample :
    BasicValidator.validate polEmptyPSK = Except.ok () ∧
    (∃ t ∈ polEmptyPSK.tunnels, t.auth.type = AuthPSK ∧ t.auth.secret.length < 8) ∧
    Validate polEmptyPSK =
      Except.error (ValidationError.pskSecretRequired 0 "tun-empty") ∧
    ValidationError.pskSecretRequired 0 "tun-empty" ≠
      ValidationError.pskSecretTooShort 0 "tun-empty" := by
  refine ⟨rfl, ⟨mkTunnel "tun-empty" sampleCrypto "" true, by decide, by decide, by decide⟩,
    rfl, by decide⟩

/-- C8 witness: the five-character secret "short" produces the PSK-length
security error. -/
theorem c8_psk_length_witness :
    Validate polShortPSK =
      Except.error (ValidationError.pskSecretTooShort 0 "tun-short") :=
  (c8_psk_length_security_error polShortPSK 0
    (mkTunnel "tun-short" sampleCrypto "short" true) rfl rfl
    (fun j _ hj _ => absurd hj (Nat.not_lt_zero j))
    rfl (by decide) (by decide)).1

/-- C9: Agent.Start returns success whatever the outcome of the
registration and initial sync (both failures are only logged), but the
registration is never retried: over any number of sync-loop ticks the
agent issues exactly one register call — each tick calls only
syncPolicies, contradicting the claim (and the code's own "will retry"
log message) that registration is retried on the next scheduled cycle. -/
theorem c9_register_never_retried :
    (∀ rf sf, startResult rf sf = none) ∧
    ∀ ticks, (agentCallTrace ticks).count AgentCall.register = 1 := by
  refine ⟨fun _ _ => rfl, ?_⟩
  intro ticks
  unfold agentCallTrace startCalls syncLoopCalls
  rw [List.count_append]
  simp [List.count_replicate, List.count_cons]

/-- C10: when ListTunnels fails at the start of a pass, the pass treats
the current set as empty — it issues a Create for every desired tunnel
and no Delete, still reports success, and records the desired mapping as
the last-applied set. -/
theorem c10_list_failure_creates_all (b : Backend)
    (desired : List (String × TunnelConfig)) (hfail : b.listResult = none) :
    (reconcile b desired).calls = desired.map (fun e => BackendCall.create e.1) ∧
    (∀ n, BackendCall.delete n ∉ (reconcile b desired).calls) ∧
    (reconcile b desired).err = none ∧
    (reconcile b desired).lastApplied = desired := by
  have hcalls : (reconcile b desired).calls =
      desired.map (fun e => BackendCall.create e.1) := by
    show reconcileCalls b desired = _
    unfold reconcileCalls
    rw [hfail]
    simp [List.contains]
  refine ⟨hcalls, ?_, rfl, rfl⟩
  intro n hmem
  rw [hcalls] at hmem
  obtain ⟨e, -, he⟩ := List.mem_map.mp hmem
  simp at he

/-- C10 witness at concrete inputs. -/
theorem c10_list_failure_witness :
    (reconcile bListFails desiredAB).calls =
      desiredAB.map (fun e => BackendCall.create e.1) :=
  (c10_list_failure_creates_all bListFails desiredAB rfl).1

end IpsecManager
